import Mathlib

/-!
Verification development for the front end of mzbac/js-parser-rs: a shallow
embedding of the tokenizer (src/lexer/Lexer.rs, with src/Lexer.rs an older
near-duplicate snapshot), the token model (src/lexer/Token.rs), the AST model
(src/lexer/AstNode.rs) and the recursive-descent parser (src/lexer/Parser.rs).

Embedding conventions:
- The Rust lexer holds an immutable character iterator plus a cursor `pos`;
  `peek()` reads the character at `pos` and `self.pos += 1` consumes one
  character.  We therefore represent the scanning state by the list of
  not-yet-consumed characters.
- The Rust f64 payload of `Token::Number` is modelled as an exact rational:
  the parser performs no arithmetic on the value, and every value appearing in
  the properties below is an exactly representable small decimal (f64 rounding
  is not modelled).
- The parser state is the token vector plus the cursor `current`, exactly as
  in `struct Parser`.  Recursive-descent functions take a fuel argument; with
  sufficient fuel the embedding computes exactly what the source computes, and
  fuel exhaustion is a distinguished outcome never reached in any theorem.
- Rust panics (`unwrap` on a failed parse) are modelled as a distinguished
  `Except.error` outcome, and the parser's empty unexpected-token match arm
  (`else { // Handle unexpected token }` in parse_primary, which produces no
  value at all) is modelled as the distinguished outcome `PErr.fallthrough`.
- Functions of this repository that are referenced but absent from src
  (the parser helpers peek/advance/check/match/consume, the statement and
  comparison-through-call productions, and the token-stream driver) are
  modelled from the spec; each such definition says so in its doc comment.
-/

namespace Js

/-- Decidable equality for `Except`, needed to evaluate lexer results. -/
instance {ε α : Type} [DecidableEq ε] [DecidableEq α] : DecidableEq (Except ε α) :=
  fun x y =>
    match x, y with
    | .ok a, .ok b =>
      if h : a = b then .isTrue (by rw [h]) else .isFalse (fun hc => h (by cases hc; rfl))
    | .error a, .error b =>
      if h : a = b then .isTrue (by rw [h]) else .isFalse (fun hc => h (by cases hc; rfl))
    | .ok _, .error _ => .isFalse (fun hc => nomatch hc)
    | .error _, .ok _ => .isFalse (fun hc => nomatch hc)

/-- Token model from src/lexer/Token.rs (`pub enum Token`), restricted to the
variants the embedded lexer and parser construct or inspect.  The omitted
variants (GreaterGreater, GreaterGreaterEqual, LessLess, LessLessEqual,
PlusPlus, MinusMinus, EqualEqualEqual, BangEqualEqual, Caret, Tilde, the
keywords Break through With other than those listed, Enum, Async, Await, Get,
Set, Of, and EOF) are declared in Token.rs but are dead: nothing in src
produces or matches them, so dropping them changes no observable behaviour.
Conversely `PlusEqual`, `MinusEqual`, `StarEqual`, `SlashEqual` are referenced
by Parser.rs (`parse_assignment`) although Token.rs does not declare them;
they are included so the parser can be embedded as written.  The f64 payload
of `Number` is an exact rational, see the header note. -/
inductive Token where
  | LeftParen | RightParen | LeftBrace | RightBrace
  | LeftBracket | RightBracket
  | Comma | Dot | Minus | Plus | Semicolon | Slash | Star
  | Bang | BangEqual
  | Equal | EqualEqual
  | Greater | GreaterEqual
  | Less | LessEqual
  | Ampersand | AmpersandAmpersand
  | Pipe | PipePipe
  | Question | Colon
  | Identifier (name : String)
  | String (value : String)
  | Number (value : ℚ)
  | Else | Function | If | Return | This | Var | While
  | Null
  | True | False
  | PlusEqual | MinusEqual | StarEqual | SlashEqual
deriving DecidableEq

/-- Outcome of a Rust panic inside the lexer: `scan_number` ends in
`number.parse().unwrap()`, which panics when the collected digit/dot run is
not a valid f64 numeral. -/
inductive LexAbort where
  | numberParseFailed (text : String)
deriving DecidableEq

/-- ASCII fragment of Rust `char::is_whitespace` (the sources and properties
below use only ASCII whitespace). -/
def isWsChar (c : Char) : Bool :=
  c = ' ' || c = '\t' || c = '\n' || c = '\r'

/-- Lexer.rs `skip_whitespace`: advance the cursor while the current character
is whitespace. -/
def skip_whitespace : List Char → List Char
  | [] => []
  | c :: cs => if isWsChar c then skip_whitespace cs else c :: cs

/-- Lexer.rs `skip_comment`: consume characters through the terminating
newline (inclusive), or to end of input. -/
def skip_comment : List Char → List Char
  | [] => []
  | c :: cs => if c = '\n' then cs else skip_comment cs

/-- Lexer.rs `skip_comment_block`: consume characters through the first
closing marker, or silently to end of input when the block is unterminated. -/
def skip_comment_block : List Char → List Char
  | '*' :: '/' :: cs => cs
  | _ :: cs => skip_comment_block cs
  | [] => []

/-- Decimal value of a digit run, as accumulated left to right. -/
def digitsVal (cs : List Char) : ℕ :=
  cs.foldl (fun acc c => acc * 10 + (c.toNat - 48)) 0

/-- Split a character run at the dots (used to model f64 parsing of the
digit/dot runs `scan_number` collects). -/
def splitDots : List Char → List (List Char)
  | [] => [[]]
  | '.' :: cs => [] :: splitDots cs
  | c :: cs =>
    match splitDots cs with
    | [] => [[c]]
    | p :: ps => (c :: p) :: ps

/-- Rust `str::parse::<f64>` restricted to the digit/dot runs that
`scan_number` can collect: a valid numeral is `digit* ('.' digit*)?` with at
least one digit, and its value is the exact decimal it denotes; anything else
(two or more dots, or no digit) fails, which makes the `unwrap` in
`scan_number` panic. -/
def rustParseF64 (cs : List Char) : Option ℚ :=
  match splitDots cs with
  | [d] =>
    if !d.isEmpty && d.all Char.isDigit then some (digitsVal d : ℚ) else none
  | [i, f] =>
    if (!i.isEmpty || !f.isEmpty) && i.all Char.isDigit && f.all Char.isDigit then
      if f.isEmpty then some (digitsVal i : ℚ)
      else some ((digitsVal i : ℚ) + (digitsVal f : ℚ) / (10 : ℚ) ^ f.length)
    else none
  | _ => none

/-- Lexer.rs `scan_number`, character-collection phase: the maximal run of
ASCII digits and dots. -/
def scan_number_text : List Char → List Char × List Char
  | [] => ([], [])
  | c :: cs =>
    if c.isDigit || c = '.' then
      let (t, r) := scan_number_text cs
      (c :: t, r)
    else ([], c :: cs)

/-- Lexer.rs `scan_number`: collect the digit/dot run and parse it;
`parse().unwrap()` panics (modelled as `Except.error`) when the run is not a
valid numeral. -/
def scan_number (cs : List Char) : Except LexAbort (Token × List Char) :=
  let (t, r) := scan_number_text cs
  match rustParseF64 t with
  | some q => .ok (.Number q, r)
  | none => .error (.numberParseFailed (String.mk t))

/-- Lexer.rs `scan_string`, body phase: consume characters until the matching
quote (consumed) or end of input; the collected text is kept either way. -/
def scan_string_body (quote : Char) : List Char → List Char × List Char
  | [] => ([], [])
  | c :: cs =>
    if c = quote then ([], cs)
    else
      let (t, r) := scan_string_body quote cs
      (c :: t, r)

/-- Lexer.rs `scan_string`: the opening quote has already been consumed by the
caller (Rust consumes it with `self.next()`); reaching end of input before the
closing quote silently yields a String token with the truncated content. -/
def scan_string (quote : Char) (cs : List Char) : Token × List Char :=
  let (t, r) := scan_string_body quote cs
  (.String (String.mk t), r)

/-- Lexer.rs `scan_identifier`, character-collection phase: the maximal run of
ASCII letters, digits and underscore. -/
def scan_identifier_text : List Char → List Char × List Char
  | [] => ([], [])
  | c :: cs =>
    if c.isAlpha || c.isDigit || c = '_' then
      let (t, r) := scan_identifier_text cs
      (c :: t, r)
    else ([], c :: cs)

/-- Lexer.rs `scan_identifier`, keyword table: note the capitalised entries
for the boolean literals, exactly as in the source (`"True" => Token::True`,
`"False" => Token::False`); every non-match becomes an Identifier.  (The older
snapshot src/Lexer.rs has the same table minus any boolean entries.) -/
def keyword_or_identifier (s : String) : Token :=
  match s with
  | "var" => .Var
  | "if" => .If
  | "else" => .Else
  | "while" => .While
  | "function" => .Function
  | "return" => .Return
  | "this" => .This
  | "null" => .Null
  | "True" => .True
  | "False" => .False
  | _ => .Identifier s

/-- Lexer.rs `scan_identifier`. -/
def scan_identifier (cs : List Char) : Token × List Char :=
  let (t, r) := scan_identifier_text cs
  (keyword_or_identifier (String.mk t), r)

/-- The single-quote character (written by code point to keep the source
plain). -/
def singleQuote : Char := Char.ofNat 39

/-- Lexer.rs `next_token`, after the initial `skip_whitespace`: dispatch on
the current character.  A comment consumes its text and returns `none` (the
same value that signals end of input).  The final wildcard arm `_ => None`
returns `none` without consuming the unknown character. -/
def next_token_core : List Char → Except LexAbort (Option Token × List Char)
  | [] => .ok (none, [])
  | c :: rest =>
    if c.isDigit then
      match scan_number (c :: rest) with
      | .error e => .error e
      | .ok (t, r) => .ok (some t, r)
    else if c = '"' || c = singleQuote then
      let (t, r) := scan_string c rest
      .ok (some t, r)
    else if c.isAlpha then
      let (t, r) := scan_identifier (c :: rest)
      .ok (some t, r)
    else
      match c, rest with
      | '+', r => .ok (some .Plus, r)
      | '-', r => .ok (some .Minus, r)
      | '*', r => .ok (some .Star, r)
      | '/', r =>
        match r with
        | '/' :: r2 => .ok (none, skip_comment r2)
        | '*' :: r2 => .ok (none, skip_comment_block r2)
        | _ => .ok (some .Slash, r)
      | '(', r => .ok (some .LeftParen, r)
      | ')', r => .ok (some .RightParen, r)
      | '{', r => .ok (some .LeftBrace, r)
      | '}', r => .ok (some .RightBrace, r)
      | '[', r => .ok (some .LeftBracket, r)
      | ']', r => .ok (some .RightBracket, r)
      | ';', r => .ok (some .Semicolon, r)
      | ',', r => .ok (some .Comma, r)
      | '.', r => .ok (some .Dot, r)
      | '=', r =>
        match r with
        | '=' :: r2 => .ok (some .EqualEqual, r2)
        | _ => .ok (some .Equal, r)
      | '!', r =>
        match r with
        | '=' :: r2 => .ok (some .BangEqual, r2)
        | _ => .ok (some .Bang, r)
      | '<', r =>
        match r with
        | '=' :: r2 => .ok (some .LessEqual, r2)
        | _ => .ok (some .Less, r)
      | '>', r =>
        match r with
        | '=' :: r2 => .ok (some .GreaterEqual, r2)
        | _ => .ok (some .Greater, r)
      | '&', r =>
        match r with
        | '&' :: r2 => .ok (some .AmpersandAmpersand, r2)
        | _ => .ok (some .Ampersand, r)
      | '|', r =>
        match r with
        | '|' :: r2 => .ok (some .PipePipe, r2)
        | _ => .ok (some .Pipe, r)
      | _, r => .ok (none, c :: r)

/-- Lexer.rs `next_token`: skip whitespace, then dispatch. -/
def next_token (cs : List Char) : Except LexAbort (Option Token × List Char) :=
  next_token_core (skip_whitespace cs)

/-- Modelled from the spec: the token-stream driver (`lexer::tokenize`, called
by the Parser.rs tests but absent from src).  Per the tokenizer contract,
each `next_token` call either returns exactly one token or signals end of
input, so the driver collects tokens until the first `none`.  The fuel
`length + 1` is always sufficient: every returned token consumes at least one
character. -/
def tokenize_fuel : ℕ → List Char → Except LexAbort (List Token)
  | 0, _ => .ok []
  | n + 1, cs =>
    match next_token cs with
    | .error e => .error e
    | .ok (none, _) => .ok []
    | .ok (some t, rest) =>
      match tokenize_fuel n rest with
      | .error e => .error e
      | .ok ts => .ok (t :: ts)

/-- Modelled from the spec: see `tokenize_fuel`. -/
def tokenize (cs : List Char) : Except LexAbort (List Token) :=
  tokenize_fuel (cs.length + 1) cs

/-- Modelled from the spec: a driver that keeps requesting tokens past the
`none` a comment-consuming call returns (the pattern the repository's own
lexer tests follow), stopping only at a `none` that consumes nothing (true
end of input, or the unconsumed unknown character). -/
def tokenize_resuming_fuel : ℕ → List Char → Except LexAbort (List Token)
  | 0, _ => .ok []
  | n + 1, cs =>
    match next_token cs with
    | .error e => .error e
    | .ok (some t, rest) =>
      match tokenize_resuming_fuel n rest with
      | .error e => .error e
      | .ok ts => .ok (t :: ts)
    | .ok (none, rest) =>
      if rest.length < cs.length then tokenize_resuming_fuel n rest else .ok []

/-- Modelled from the spec: see `tokenize_resuming_fuel`. -/
def tokenize_resuming (cs : List Char) : Except LexAbort (List Token) :=
  tokenize_resuming_fuel (cs.length + 1) cs


/-- Token kinds as Parser.rs names them in `match_token`/`check`/`consume`
calls (e.g. `Token::Identifier` there denotes any identifier token). -/
inductive TokKind where
  | kVar | kFunction | kIdentifier | kEqual | kSemicolon
  | kLeftParen | kRightParen | kLeftBrace | kRightBrace | kComma
  | kIf | kElse | kReturn
  | kQuestion | kColon
  | kPipePipe | kAmpersandAmpersand
  | kEqualEqual | kBangEqual
  | kLess | kGreater | kLessEqual | kGreaterEqual
  | kPlus | kMinus | kStar | kSlash | kBang
  | kNumber | kString | kTrue | kFalse | kNull
  | kPlusEqual | kMinusEqual | kStarEqual | kSlashEqual
deriving DecidableEq

/-- Whether a token is of the given kind (literal-bearing kinds match any
payload). -/
def kind_matches (t : Token) (k : TokKind) : Bool :=
  match k, t with
  | .kVar, .Var => true
  | .kFunction, .Function => true
  | .kIdentifier, .Identifier _ => true
  | .kEqual, .Equal => true
  | .kSemicolon, .Semicolon => true
  | .kLeftParen, .LeftParen => true
  | .kRightParen, .RightParen => true
  | .kLeftBrace, .LeftBrace => true
  | .kRightBrace, .RightBrace => true
  | .kComma, .Comma => true
  | .kIf, .If => true
  | .kElse, .Else => true
  | .kReturn, .Return => true
  | .kQuestion, .Question => true
  | .kColon, .Colon => true
  | .kPipePipe, .PipePipe => true
  | .kAmpersandAmpersand, .AmpersandAmpersand => true
  | .kEqualEqual, .EqualEqual => true
  | .kBangEqual, .BangEqual => true
  | .kLess, .Less => true
  | .kGreater, .Greater => true
  | .kLessEqual, .LessEqual => true
  | .kGreaterEqual, .GreaterEqual => true
  | .kPlus, .Plus => true
  | .kMinus, .Minus => true
  | .kStar, .Star => true
  | .kSlash, .Slash => true
  | .kBang, .Bang => true
  | .kNumber, .Number _ => true
  | .kString, .String _ => true
  | .kTrue, .True => true
  | .kFalse, .False => true
  | .kNull, .Null => true
  | .kPlusEqual, .PlusEqual => true
  | .kMinusEqual, .MinusEqual => true
  | .kStarEqual, .StarEqual => true
  | .kSlashEqual, .SlashEqual => true
  | _, _ => false

/-- AST model from src/lexer/AstNode.rs (`pub enum AstNode`).
`LogicalExpression` and `TernaryExpression` are constructed by Parser.rs
(`parse_or`/`parse_and`/`parse_ternary`) although the enum in AstNode.rs does
not declare them, so they are included.  `UnaryExpression` is modelled from
the spec (grammar production `unary`; the spec's node list declares no
dedicated unary node).  `IfStatement` and `ReturnStatement` are modelled from
the spec (section 3) for the statement productions absent from src. -/
inductive AstNode where
  | NumberLiteral (value : ℚ)
  | StringLiteral (value : String)
  | Identifier (name : String)
  | CallExpression (callee : AstNode) (arguments : List AstNode)
  | BinaryExpression (operator : String) (left : AstNode) (right : AstNode)
  | LogicalExpression (operator : String) (left : AstNode) (right : AstNode)
  | AssignmentExpression (operator : String) (left : AstNode) (right : AstNode)
  | TernaryExpression (left : AstNode) (middle : AstNode) (right : AstNode)
  | UnaryExpression (operator : String) (operand : AstNode)
  | VariableDeclaration (id : AstNode) (init : AstNode)
  | BlockStatement (body : List AstNode)
  | IfStatement (cond : AstNode) (thenBranch : AstNode) (elseBranch : Option AstNode)
  | ReturnStatement (value : Option AstNode)
  | FunctionDeclaration (id : AstNode) (params : List AstNode) (body : AstNode)
  | Program (body : List AstNode)

/-- Structured parse outcome.  `unexpected` is the ParseError a spec-modelled
`consume` raises (expected-token message plus the token actually found, none
at end of input).  `fallthrough` models the empty unexpected-token match arm
of src `parse_primary` (the code produces no value there).  `outOfFuel` is
the embedding's fuel-exhaustion marker, never reached in the theorems. -/
inductive PErr where
  | unexpected (message : String) (found : Option Token)
  | fallthrough
  | outOfFuel
deriving DecidableEq

/-- Parser state from src/lexer/Parser.rs: `struct Parser { tokens, current }`. -/
structure PState where
  tokens : List Token
  current : ℕ
deriving DecidableEq

/-- Modelled from the spec: parser primitive `peek` (absent from src). -/
def peek (s : PState) : Option Token :=
  s.tokens.get? s.current

/-- Modelled from the spec: parser primitive `advance` (absent from src);
moves the cursor forward one token, or not at all at end of input. -/
def advance (s : PState) : PState :=
  if s.current < s.tokens.length then { s with current := s.current + 1 } else s

/-- Modelled from the spec: `previous()`, the most recently consumed token
(absent from src). -/
def previous (s : PState) : Option Token :=
  s.tokens.get? (s.current - 1)

/-- Modelled from the spec: parser primitive `is_at_end` (absent from src). -/
def is_at_end (s : PState) : Bool :=
  s.tokens.length ≤ s.current

/-- Modelled from the spec: parser primitive `check(kind)` (absent from src). -/
def check (k : TokKind) (s : PState) : Bool :=
  match peek s with
  | some t => kind_matches t k
  | none => false

/-- Modelled from the spec: parser primitive `match(kind)` (absent from src);
advances and returns true iff the next token matches. -/
def match_token (k : TokKind) (s : PState) : Bool × PState :=
  if check k s then (true, advance s) else (false, s)

/-- Modelled from the spec: parser primitive `consume(kind, message)` (absent
from src); advances past a matching token or fails with a parse error
carrying the message and the token actually found. -/
def consume (k : TokKind) (message : String) (s : PState) :
    Except PErr (Token × PState) :=
  match peek s with
  | some t =>
    if kind_matches t k then .ok (t, advance s)
    else .error (.unexpected message (some t))
  | none => .error (.unexpected message none)

/-- The `.lexeme` field access Parser.rs performs on identifier tokens. -/
def tok_lexeme : Token → String
  | .Identifier n => n
  | _ => ""

/-- The `.to_string()` Parser.rs performs on operator tokens to record the
operator; only operator tokens reach it. -/
def tok_to_string : Token → String
  | .Equal => "="
  | .PlusEqual => "+="
  | .MinusEqual => "-="
  | .StarEqual => "*="
  | .SlashEqual => "/="
  | .EqualEqual => "=="
  | .BangEqual => "!="
  | .PipePipe => "||"
  | .AmpersandAmpersand => "&&"
  | .Less => "<"
  | .Greater => ">"
  | .LessEqual => "<="
  | .GreaterEqual => ">="
  | .Plus => "+"
  | .Minus => "-"
  | .Star => "*"
  | .Slash => "/"
  | .Bang => "!"
  | _ => ""

/-- `self.previous().to_string()` as Parser.rs uses it after a successful
`match_token` on an operator. -/
def previous_op (s : PState) : String :=
  match previous s with
  | some t => tok_to_string t
  | none => ""

/-- `self.previous().literal` as Parser.rs uses it in the Number and String
arms of `parse_primary` (guarded by `match_token`, so the final arm is
unreachable there). -/
def literal_node : Option Token → AstNode
  | some (.Number q) => .NumberLiteral q
  | some (.String v) => .StringLiteral v
  | _ => .NumberLiteral 0

/-- `self.previous().lexeme` as Parser.rs uses it in the Identifier arm of
`parse_primary`. -/
def previous_lexeme (s : PState) : String :=
  match previous s with
  | some (.Identifier n) => n
  | _ => ""

mutual

/-- Parser.rs `parse`: declarations until end of input, wrapped in a Program
node; the first error aborts. -/
def parse : ℕ → PState → Except PErr (AstNode × PState)
  | 0, _ => .error .outOfFuel
  | fuel + 1, s =>
    match parse_program_nodes fuel [] s with
    | .error e => .error e
    | .ok (ns, s1) => .ok (.Program ns, s1)

/-- The `while !self.is_at_end()` collection loop of Parser.rs `parse`. -/
def parse_program_nodes : ℕ → List AstNode → PState →
    Except PErr (List AstNode × PState)
  | 0, _, _ => .error .outOfFuel
  | fuel + 1, acc, s =>
    if is_at_end s then .ok (acc.reverse, s)
    else
      match declaration fuel s with
      | .error e => .error e
      | .ok (n, s1) => parse_program_nodes fuel (n :: acc) s1

/-- Parser.rs `declaration`. -/
def declaration : ℕ → PState → Except PErr (AstNode × PState)
  | 0, _ => .error .outOfFuel
  | fuel + 1, s =>
    let (mVar, s1) := match_token .kVar s
    if mVar then var_declaration fuel s1
    else
      let (mFun, s2) := match_token .kFunction s1
      if mFun then function fuel s2
      else statement fuel s2

/-- Parser.rs `var_declaration`: a missing initializer is replaced by the
sentinel `AstNode::NumberLiteral(0.0)` (`init.unwrap_or(...)`). -/
def var_declaration : ℕ → PState → Except PErr (AstNode × PState)
  | 0, _ => .error .outOfFuel
  | fuel + 1, s =>
    match consume .kIdentifier "Expect variable name." s with
    | .error e => .error e
    | .ok (idTok, s1) =>
      let (hasInit, s2) := match_token .kEqual s1
      let initRes : Except PErr (Option AstNode × PState) :=
        if hasInit then
          match parse_expression fuel s2 with
          | .error e => .error e
          | .ok (e, s3) => .ok (some e, s3)
        else .ok (none, s2)
      match initRes with
      | .error e => .error e
      | .ok (initOpt, s3) =>
        match consume .kSemicolon "Expect ';' after variable declaration." s3 with
        | .error e => .error e
        | .ok (_, s4) =>
          .ok (.VariableDeclaration (.Identifier (tok_lexeme idTok))
                (initOpt.getD (.NumberLiteral 0)), s4)

/-- Parser.rs `function` (always invoked with kind `"function"`, so the
format! messages are inlined). -/
def function : ℕ → PState → Except PErr (AstNode × PState)
  | 0, _ => .error .outOfFuel
  | fuel + 1, s =>
    match consume .kIdentifier "Expect function name." s with
    | .error e => .error e
    | .ok (nameTok, s1) =>
      match consume .kLeftParen "Expect '(' after function name." s1 with
      | .error e => .error e
      | .ok (_, s2) =>
        let paramsRes : Except PErr (List Token × PState) :=
          if check .kRightParen s2 then .ok ([], s2)
          else function_params fuel [] s2
        match paramsRes with
        | .error e => .error e
        | .ok (params, s3) =>
          match consume .kRightParen "Expect ')' after parameters." s3 with
          | .error e => .error e
          | .ok (_, s4) =>
            match consume .kLeftBrace "Expect '\x7b' before function body." s4 with
            | .error e => .error e
            | .ok (_, s5) =>
              match block fuel s5 with
              | .error e => .error e
              | .ok (body, s6) =>
                .ok (.FunctionDeclaration (.Identifier (tok_lexeme nameTok))
                      (params.map (fun p => .Identifier (tok_lexeme p))) body, s6)

/-- The parameter-list loop of Parser.rs `function`. -/
def function_params : ℕ → List Token → PState → Except PErr (List Token × PState)
  | 0, _, _ => .error .outOfFuel
  | fuel + 1, acc, s =>
    match consume .kIdentifier "Expect parameter name." s with
    | .error e => .error e
    | .ok (p, s1) =>
      let (more, s2) := match_token .kComma s1
      if more then function_params fuel (p :: acc) s2
      else .ok ((p :: acc).reverse, s2)

/-- Parser.rs `statement` (no while branch exists in src, though the grammar
lists one). -/
def statement : ℕ → PState → Except PErr (AstNode × PState)
  | 0, _ => .error .outOfFuel
  | fuel + 1, s =>
    let (mBrace, s1) := match_token .kLeftBrace s
    if mBrace then block fuel s1
    else
      let (mIf, s2) := match_token .kIf s1
      if mIf then if_statement fuel s2
      else
        let (mRet, s3) := match_token .kReturn s2
        if mRet then return_statement fuel s3
        else expression_statement fuel s3

/-- Modelled from the spec: `block` (absent from src; grammar
`block := '\x7b' declaration* '\x7d'`, the opening brace already consumed by
the caller). -/
def block : ℕ → PState → Except PErr (AstNode × PState)
  | 0, _ => .error .outOfFuel
  | fuel + 1, s =>
    match block_nodes fuel [] s with
    | .error e => .error e
    | .ok (ns, s1) => .ok (.BlockStatement ns, s1)

/-- Modelled from the spec: the declaration-collection loop of `block`. -/
def block_nodes : ℕ → List AstNode → PState →
    Except PErr (List AstNode × PState)
  | 0, _, _ => .error .outOfFuel
  | fuel + 1, acc, s =>
    if check .kRightBrace s || is_at_end s then
      match consume .kRightBrace "Expect closing brace after block." s with
      | .error e => .error e
      | .ok (_, s1) => .ok (acc.reverse, s1)
    else
      match declaration fuel s with
      | .error e => .error e
      | .ok (n, s1) => block_nodes fuel (n :: acc) s1

/-- Modelled from the spec: `if_statement` (absent from src; grammar
`ifStmt := 'if' '(' expression ')' statement ('else' statement)?`). -/
def if_statement : ℕ → PState → Except PErr (AstNode × PState)
  | 0, _ => .error .outOfFuel
  | fuel + 1, s =>
    match consume .kLeftParen "Expect '(' after 'if'." s with
    | .error e => .error e
    | .ok (_, s1) =>
      match parse_expression fuel s1 with
      | .error e => .error e
      | .ok (cond, s2) =>
        match consume .kRightParen "Expect ')' after if condition." s2 with
        | .error e => .error e
        | .ok (_, s3) =>
          match statement fuel s3 with
          | .error e => .error e
          | .ok (thenB, s4) =>
            let (mElse, s5) := match_token .kElse s4
            if mElse then
              match statement fuel s5 with
              | .error e => .error e
              | .ok (elseB, s6) => .ok (.IfStatement cond thenB (some elseB), s6)
            else .ok (.IfStatement cond thenB none, s5)

/-- Modelled from the spec: `return_statement` (absent from src; grammar
`returnStmt := 'return' expression? ';'`). -/
def return_statement : ℕ → PState → Except PErr (AstNode × PState)
  | 0, _ => .error .outOfFuel
  | fuel + 1, s =>
    if check .kSemicolon s then
      match consume .kSemicolon "Expect ';' after return value." s with
      | .error e => .error e
      | .ok (_, s1) => .ok (.ReturnStatement none, s1)
    else
      match parse_expression fuel s with
      | .error e => .error e
      | .ok (v, s1) =>
        match consume .kSemicolon "Expect ';' after return value." s1 with
        | .error e => .error e
        | .ok (_, s2) => .ok (.ReturnStatement (some v), s2)

/-- Modelled from the spec: `expression_statement` (absent from src; grammar
`exprStmt := expression ';'`; the spec's node list declares no dedicated
expression-statement node, so the expression itself is the statement's
node). -/
def expression_statement : ℕ → PState → Except PErr (AstNode × PState)
  | 0, _ => .error .outOfFuel
  | fuel + 1, s =>
    match parse_expression fuel s with
    | .error e => .error e
    | .ok (e, s1) =>
      match consume .kSemicolon "Expect ';' after expression." s1 with
      | .error e2 => .error e2
      | .ok (_, s2) => .ok (e, s2)

/-- Parser.rs `parse_expression`. -/
def parse_expression : ℕ → PState → Except PErr (AstNode × PState)
  | 0, _ => .error .outOfFuel
  | fuel + 1, s => parse_assignment fuel s

/-- Parser.rs `parse_assignment`: the five assignment-operator kinds are tried
in order with short-circuit (each failed `match_token` leaves the cursor in
place); right-associative via the recursive self-call on the right operand. -/
def parse_assignment : ℕ → PState → Except PErr (AstNode × PState)
  | 0, _ => .error .outOfFuel
  | fuel + 1, s =>
    match parse_ternary fuel s with
    | .error e => .error e
    | .ok (left, s1) =>
      let (m1, t1) := match_token .kEqual s1
      let (m2, t2) := if m1 then (false, t1) else match_token .kPlusEqual t1
      let (m3, t3) := if m1 || m2 then (false, t2) else match_token .kMinusEqual t2
      let (m4, t4) :=
        if m1 || m2 || m3 then (false, t3) else match_token .kStarEqual t3
      let (m5, t5) :=
        if m1 || m2 || m3 || m4 then (false, t4) else match_token .kSlashEqual t4
      if m1 || m2 || m3 || m4 || m5 then
        let operator := previous_op t5
        match parse_assignment fuel t5 with
        | .error e => .error e
        | .ok (right, s2) => .ok (.AssignmentExpression operator left right, s2)
      else .ok (left, t5)

/-- Parser.rs `parse_ternary`, exactly as written: after `match_token` has
already consumed the '?', the code calls `self.advance()` once more, so the
token directly after '?' is skipped before the middle operand is parsed. -/
def parse_ternary : ℕ → PState → Except PErr (AstNode × PState)
  | 0, _ => .error .outOfFuel
  | fuel + 1, s =>
    match parse_or fuel s with
    | .error e => .error e
    | .ok (left, s1) =>
      let (mQ, s2) := match_token .kQuestion s1
      if mQ then
        let s3 := advance s2
        match parse_expression fuel s3 with
        | .error e => .error e
        | .ok (middle, s4) =>
          match consume .kColon "Expect ':' after '?' in ternary operator." s4 with
          | .error e => .error e
          | .ok (_, s5) =>
            match parse_expression fuel s5 with
            | .error e => .error e
            | .ok (right, s6) => .ok (.TernaryExpression left middle right, s6)
      else .ok (left, s2)

/-- Parser.rs `parse_or`. -/
def parse_or : ℕ → PState → Except PErr (AstNode × PState)
  | 0, _ => .error .outOfFuel
  | fuel + 1, s =>
    match parse_and fuel s with
    | .error e => .error e
    | .ok (left, s1) => parse_or_more fuel left s1

/-- The `while self.match_token(Token::PipePipe)` loop of `parse_or`. -/
def parse_or_more : ℕ → AstNode → PState → Except PErr (AstNode × PState)
  | 0, _, _ => .error .outOfFuel
  | fuel + 1, left, s =>
    let (m, s1) := match_token .kPipePipe s
    if m then
      let operator := previous_op s1
      match parse_and fuel s1 with
      | .error e => .error e
      | .ok (right, s2) =>
        parse_or_more fuel (.LogicalExpression operator left right) s2
    else .ok (left, s1)

/-- Parser.rs `parse_and`. -/
def parse_and : ℕ → PState → Except PErr (AstNode × PState)
  | 0, _ => .error .outOfFuel
  | fuel + 1, s =>
    match parse_equality fuel s with
    | .error e => .error e
    | .ok (left, s1) => parse_and_more fuel left s1

/-- The `while self.match_token(Token::AmpersandAmpersand)` loop of
`parse_and`. -/
def parse_and_more : ℕ → AstNode → PState → Except PErr (AstNode × PState)
  | 0, _, _ => .error .outOfFuel
  | fuel + 1, left, s =>
    let (m, s1) := match_token .kAmpersandAmpersand s
    if m then
      let operator := previous_op s1
      match parse_equality fuel s1 with
      | .error e => .error e
      | .ok (right, s2) =>
        parse_and_more fuel (.LogicalExpression operator left right) s2
    else .ok (left, s1)

/-- Parser.rs `parse_equality`. -/
def parse_equality : ℕ → PState → Except PErr (AstNode × PState)
  | 0, _ => .error .outOfFuel
  | fuel + 1, s =>
    match parse_comparison fuel s with
    | .error e => .error e
    | .ok (left, s1) => parse_equality_more fuel left s1

/-- The equality loop of `parse_equality`: `==` is tried first, `!=` second
(short-circuit, as in the Rust `||`). -/
def parse_equality_more : ℕ → AstNode → PState → Except PErr (AstNode × PState)
  | 0, _, _ => .error .outOfFuel
  | fuel + 1, left, s =>
    let (m1, s1) := match_token .kEqualEqual s
    let (m2, s2) := if m1 then (false, s1) else match_token .kBangEqual s1
    if m1 || m2 then
      let operator := previous_op s2
      match parse_comparison fuel s2 with
      | .error e => .error e
      | .ok (right, s3) =>
        parse_equality_more fuel (.BinaryExpression operator left right) s3
    else .ok (left, s2)

/-- Modelled from the spec: `comparison := additive (('<' | '>' | '<=' | '>=')
additive)*` (called by src `parse_equality` but absent from src). -/
def parse_comparison : ℕ → PState → Except PErr (AstNode × PState)
  | 0, _ => .error .outOfFuel
  | fuel + 1, s =>
    match parse_additive fuel s with
    | .error e => .error e
    | .ok (left, s1) => parse_comparison_more fuel left s1

/-- Modelled from the spec: the comparison-operator loop. -/
def parse_comparison_more : ℕ → AstNode → PState →
    Except PErr (AstNode × PState)
  | 0, _, _ => .error .outOfFuel
  | fuel + 1, left, s =>
    let (m1, s1) := match_token .kLess s
    let (m2, s2) := if m1 then (false, s1) else match_token .kGreater s1
    let (m3, s3) := if m1 || m2 then (false, s2) else match_token .kLessEqual s2
    let (m4, s4) :=
      if m1 || m2 || m3 then (false, s3) else match_token .kGreaterEqual s3
    if m1 || m2 || m3 || m4 then
      let operator := previous_op s4
      match parse_additive fuel s4 with
      | .error e => .error e
      | .ok (right, s5) =>
        parse_comparison_more fuel (.BinaryExpression operator left right) s5
    else .ok (left, s4)

/-- Modelled from the spec: `additive := multiplicative (('+' | '-')
multiplicative)*` (absent from src). -/
def parse_additive : ℕ → PState → Except PErr (AstNode × PState)
  | 0, _ => .error .outOfFuel
  | fuel + 1, s =>
    match parse_multiplicative fuel s with
    | .error e => .error e
    | .ok (left, s1) => parse_additive_more fuel left s1

/-- Modelled from the spec: the additive-operator loop. -/
def parse_additive_more : ℕ → AstNode → PState → Except PErr (AstNode × PState)
  | 0, _, _ => .error .outOfFuel
  | fuel + 1, left, s =>
    let (m1, s1) := match_token .kPlus s
    let (m2, s2) := if m1 then (false, s1) else match_token .kMinus s1
    if m1 || m2 then
      let operator := previous_op s2
      match parse_multiplicative fuel s2 with
      | .error e => .error e
      | .ok (right, s3) =>
        parse_additive_more fuel (.BinaryExpression operator left right) s3
    else .ok (left, s2)

/-- Modelled from the spec: `multiplicative := unary (('*' | '/') unary)*`
(absent from src). -/
def parse_multiplicative : ℕ → PState → Except PErr (AstNode × PState)
  | 0, _ => .error .outOfFuel
  | fuel + 1, s =>
    match parse_unary fuel s with
    | .error e => .error e
    | .ok (left, s1) => parse_multiplicative_more fuel left s1

/-- Modelled from the spec: the multiplicative-operator loop. -/
def parse_multiplicative_more : ℕ → AstNode → PState →
    Except PErr (AstNode × PState)
  | 0, _, _ => .error .outOfFuel
  | fuel + 1, left, s =>
    let (m1, s1) := match_token .kStar s
    let (m2, s2) := if m1 then (false, s1) else match_token .kSlash s1
    if m1 || m2 then
      let operator := previous_op s2
      match parse_unary fuel s2 with
      | .error e => .error e
      | .ok (right, s3) =>
        parse_multiplicative_more fuel (.BinaryExpression operator left right) s3
    else .ok (left, s2)

/-- Modelled from the spec: `unary := ('!' | '-') unary | call` (absent from
src). -/
def parse_unary : ℕ → PState → Except PErr (AstNode × PState)
  | 0, _ => .error .outOfFuel
  | fuel + 1, s =>
    let (m1, s1) := match_token .kBang s
    let (m2, s2) := if m1 then (false, s1) else match_token .kMinus s1
    if m1 || m2 then
      let operator := previous_op s2
      match parse_unary fuel s2 with
      | .error e => .error e
      | .ok (operand, s3) => .ok (.UnaryExpression operator operand, s3)
    else parse_call fuel s2

/-- Modelled from the spec: `call := primary ('(' argList? ')')*`, with nested
CallExpression chaining (the char-based `parse_call_expression` left in src is
dead code that no token-level function calls). -/
def parse_call : ℕ → PState → Except PErr (AstNode × PState)
  | 0, _ => .error .outOfFuel
  | fuel + 1, s =>
    match parse_primary fuel s with
    | .error e => .error e
    | .ok (callee, s1) => parse_call_more fuel callee s1

/-- Modelled from the spec: the call-chaining loop. -/
def parse_call_more : ℕ → AstNode → PState → Except PErr (AstNode × PState)
  | 0, _, _ => .error .outOfFuel
  | fuel + 1, callee, s =>
    let (m, s1) := match_token .kLeftParen s
    if m then
      let argsRes : Except PErr (List AstNode × PState) :=
        if check .kRightParen s1 then .ok ([], s1)
        else parse_arguments fuel [] s1
      match argsRes with
      | .error e => .error e
      | .ok (args, s2) =>
        match consume .kRightParen "Expect ')' after arguments." s2 with
        | .error e => .error e
        | .ok (_, s3) => parse_call_more fuel (.CallExpression callee args) s3
    else .ok (callee, s1)

/-- Modelled from the spec: `argList := expression (',' expression)*`. -/
def parse_arguments : ℕ → List AstNode → PState →
    Except PErr (List AstNode × PState)
  | 0, _, _ => .error .outOfFuel
  | fuel + 1, acc, s =>
    match parse_expression fuel s with
    | .error e => .error e
    | .ok (a, s1) =>
      let (more, s2) := match_token .kComma s1
      if more then parse_arguments fuel (a :: acc) s2
      else .ok ((a :: acc).reverse, s2)

/-- Parser.rs `parse_primary`, exactly as written: `true`, `false` and the
null token fold to the numeric literals 1.0 / 0.0 / 0.0 (the src match arm
names `Token::Nil`, whose Token.rs variant is `Null`); in the parenthesis arm
a missing ')' is only noted in a comment and `advance` runs unconditionally;
the final unexpected-token arm is empty and is modelled as
`PErr.fallthrough`. -/
def parse_primary : ℕ → PState → Except PErr (AstNode × PState)
  | 0, _ => .error .outOfFuel
  | fuel + 1, s =>
    let (mFalse, s1) := match_token .kFalse s
    if mFalse then .ok (.NumberLiteral 0, s1)
    else
      let (mTrue, s2) := match_token .kTrue s1
      if mTrue then .ok (.NumberLiteral 1, s2)
      else
        let (mNull, s3) := match_token .kNull s2
        if mNull then .ok (.NumberLiteral 0, s3)
        else
          let (mNum, s4) := match_token .kNumber s3
          if mNum then .ok (literal_node (previous s4), s4)
          else
            let (mStr, s5) := match_token .kString s4
            if mStr then .ok (literal_node (previous s5), s5)
            else
              let (mId, s6) := match_token .kIdentifier s5
              if mId then .ok (.Identifier (previous_lexeme s6), s6)
              else
                let (mParen, s7) := match_token .kLeftParen s6
                if mParen then
                  match parse_expression fuel s7 with
                  | .error e => .error e
                  | .ok (e, s8) => .ok (e, advance s8)
                else .error .fallthrough

end


/-- Whether a character run contains the block-comment closing marker. -/
def has_star_slash : List Char → Bool
  | '*' :: '/' :: _ => true
  | _ :: cs => has_star_slash cs
  | [] => false

/-- Sources consisting solely of whitespace and comments: the empty source, a
whitespace character followed by such a source, a line comment (terminated by
a newline or by end of input), and a terminated block comment followed by
such a source. -/
inductive WsComments : List Char → Prop where
  | nil : WsComments []
  | ws (c : Char) (cs : List Char) (hw : isWsChar c = true) (ht : WsComments cs) :
      WsComments (c :: cs)
  | line (body cs : List Char) (hb : '\n' ∉ body) (ht : WsComments cs) :
      WsComments ('/' :: '/' :: (body ++ '\n' :: cs))
  | lineEof (body : List Char) (hb : '\n' ∉ body) :
      WsComments ('/' :: '/' :: body)
  | block (body cs : List Char) (hb : has_star_slash body = false)
      (ht : WsComments cs) :
      WsComments ('/' :: '*' :: (body ++ '*' :: '/' :: cs))

/-- On a whitespace-and-comments-only source the very first `next_token` call
already returns `none`: after the whitespace skip the cursor is at end of
input or at a comment opener, and a comment-consuming call returns `none`. -/
lemma wsComments_first_none {cs : List Char} (h : WsComments cs) :
    ∃ r, next_token cs = .ok (none, r) := by
  induction h with
  | nil => exact ⟨[], rfl⟩
  | ws c cs hw ht ih =>
    obtain ⟨r, hr⟩ := ih
    have hskip : skip_whitespace (c :: cs) = skip_whitespace cs := by
      simp [skip_whitespace, hw]
    exact ⟨r, by simpa [next_token, hskip] using hr⟩
  | line body cs hb ht ih => exact ⟨skip_comment (body ++ '\n' :: cs), rfl⟩
  | lineEof body hb => exact ⟨skip_comment body, rfl⟩
  | block body cs hb ht ih =>
    exact ⟨skip_comment_block (body ++ '*' :: '/' :: cs), rfl⟩

/-- C1: the spec requires `parse` to fail with a structured ParseError on
malformed input — for the tokens of "var x = " a ParseError reporting
unexpected end of input while an expression was expected — and never to
proceed silently.  The code instead reaches the empty unexpected-token match
arm of `parse_primary` (modelled as `PErr.fallthrough`), producing no
ParseError value, and its parenthesis arm accepts "(1" with the missing ')'
silently. -/
theorem C1_missing_expression_fallthrough :
    tokenize "var x = ".toList = .ok [.Var, .Identifier "x", .Equal] ∧
    parse 99 ⟨[.Var, .Identifier "x", .Equal], 0⟩ = .error .fallthrough ∧
    (∃ s, parse_expression 99 ⟨[.LeftParen, .Number 1], 0⟩ =
      .ok (.NumberLiteral 1, s)) :=
  ⟨by decide, rfl, ⟨_, rfl⟩⟩

/-- C2: the spec requires an UnterminatedString lexical error when end of
input is reached before the closing quote; the code's `scan_string` instead
breaks out of its loop at end of input and returns a String token holding the
truncated content. -/
theorem C2_unterminated_string_token :
    tokenize "\"unterminated".toList = .ok [.String "unterminated"] := by
  decide

/-- C3: the precedence ladder of the claim holds level by level — the
headline example "2 + 3 * 4" groups as 2 + (3 * 4), additive binds tighter
than comparison, comparison than equality, equality than logical-and,
logical-and than logical-or, and everything binds tighter than assignment —
but the ternary link of the claimed chain fails on the code: `parse_ternary`
calls `advance` again after `match_token` has already consumed the '?', so
the token after '?' is skipped and a conditional expression such as
"a || b ? c : d" ends in the empty unexpected-token arm instead of a
TernaryExpression. -/
theorem C3_precedence_ladder_and_broken_ternary :
    tokenize "2 + 3 * 4".toList =
      .ok [.Number 2, .Plus, .Number 3, .Star, .Number 4] ∧
    (∃ s, parse_expression 99 ⟨[.Number 2, .Plus, .Number 3, .Star, .Number 4], 0⟩ =
      .ok (.BinaryExpression "+" (.NumberLiteral 2)
        (.BinaryExpression "*" (.NumberLiteral 3) (.NumberLiteral 4)), s)) ∧
    (∃ s, parse_expression 99 ⟨[.Number 1, .Plus, .Number 2, .Less, .Number 3], 0⟩ =
      .ok (.BinaryExpression "<"
        (.BinaryExpression "+" (.NumberLiteral 1) (.NumberLiteral 2))
        (.NumberLiteral 3), s)) ∧
    (∃ s, parse_expression 99
        ⟨[.Number 1, .Less, .Number 2, .EqualEqual, .Number 3], 0⟩ =
      .ok (.BinaryExpression "=="
        (.BinaryExpression "<" (.NumberLiteral 1) (.NumberLiteral 2))
        (.NumberLiteral 3), s)) ∧
    (∃ s, parse_expression 99
        ⟨[.Number 1, .EqualEqual, .Number 2, .AmpersandAmpersand, .Number 3], 0⟩ =
      .ok (.LogicalExpression "&&"
        (.BinaryExpression "==" (.NumberLiteral 1) (.NumberLiteral 2))
        (.NumberLiteral 3), s)) ∧
    (∃ s, parse_expression 99
        ⟨[.Number 1, .AmpersandAmpersand, .Number 2, .PipePipe, .Number 3], 0⟩ =
      .ok (.LogicalExpression "||"
        (.LogicalExpression "&&" (.NumberLiteral 1) (.NumberLiteral 2))
        (.NumberLiteral 3), s)) ∧
    (∃ s, parse_expression 99
        ⟨[.Identifier "x", .Equal, .Number 1, .Plus, .Number 2], 0⟩ =
      .ok (.AssignmentExpression "=" (.Identifier "x")
        (.BinaryExpression "+" (.NumberLiteral 1) (.NumberLiteral 2)), s)) ∧
    parse_expression 99 ⟨[.Identifier "a", .PipePipe, .Identifier "b",
      .Question, .Identifier "c", .Colon, .Identifier "d"], 0⟩ =
      .error .fallthrough :=
  ⟨by decide, ⟨_, rfl⟩, ⟨_, rfl⟩, ⟨_, rfl⟩, ⟨_, rfl⟩, ⟨_, rfl⟩, ⟨_, rfl⟩, rfl⟩

/-- C4: the spec requires dedicated boolean/null literal nodes; the code's
`parse_primary` folds a True token to NumberLiteral 1.0 and False and the
null token to NumberLiteral 0.0. -/
theorem C4_boolean_null_numeric_placeholders :
    parse_primary 9 ⟨[.True], 0⟩ = .ok (.NumberLiteral 1, ⟨[.True], 1⟩) ∧
    parse_primary 9 ⟨[.False], 0⟩ = .ok (.NumberLiteral 0, ⟨[.False], 1⟩) ∧
    parse_primary 9 ⟨[.Null], 0⟩ = .ok (.NumberLiteral 0, ⟨[.Null], 1⟩) :=
  ⟨rfl, rfl, rfl⟩

/-- C5: the spec requires an UnknownCharacter lexical error for a character
beginning no token rule; the code's wildcard arm returns `none` — the very
value that signals end of input — without consuming the character, so
tokenizing "@ 1" silently stops with an empty token sequence. -/
theorem C5_unknown_character_silent_eoi :
    next_token "@".toList = .ok (none, ['@']) ∧
    tokenize "@ 1".toList = .ok [] :=
  ⟨by decide, by decide⟩

/-- C6 (amended): `next_token` never returns a token for whitespace or
comments, and every source consisting solely of whitespace and comments
tokenizes to the empty sequence; but a call that consumes a comment returns
`none` — the end-of-input signal — with input still remaining, so
"1 /* c */ + /* c */ 2" tokenizes to just [Number 1] under the spec's
stop-at-none contract, and matches the token sequence of "1 + 2" only for a
driver that keeps requesting tokens past comment-induced `none` returns (as
the repository's own lexer tests do). -/
theorem C6_amended_comment_behavior :
    (∀ cs : List Char, WsComments cs → tokenize cs = .ok []) ∧
    tokenize_resuming "1 /* c */ + /* c */ 2".toList =
      tokenize_resuming "1 + 2".toList ∧
    tokenize "1 /* c */ + /* c */ 2".toList = .ok [.Number 1] := by
  refine ⟨?_, by decide, by decide⟩
  intro cs h
  obtain ⟨r, hr⟩ := wsComments_first_none h
  simp [tokenize, tokenize_fuel, hr]

/-- C6 witness: the amended universal statement applied to the concrete
whitespace-only source " ". -/
theorem C6_amended_comment_behavior_witness : tokenize [' '] = .ok [] :=
  C6_amended_comment_behavior.1 [' ']
    (WsComments.ws ' ' [] rfl WsComments.nil)

/-- C6 counterexample: "1 /* c */ + /* c */ 2" does not tokenize to the same
token sequence as "1 + 2" — the first comment-consuming call returns the
end-of-input signal, so the comment-bearing source yields [Number 1] while
the plain source yields [Number 1, Plus, Number 2]. -/
theorem C6_comment_transparency_fails :
    tokenize "1 /* c */ + /* c */ 2".toList ≠ tokenize "1 + 2".toList := by
  decide

/-- C7: maximal munch for the six two-character operators — whatever follows,
a position starting with the two-character operator lexes to the
two-character token with exactly those two characters consumed, never the
one-character prefix — and "x >= 10" tokenizes to
[Identifier "x", GreaterEqual, Number 10]. -/
theorem C7_maximal_munch :
    (∀ rest : List Char,
      next_token ('=' :: '=' :: rest) = .ok (some .EqualEqual, rest)) ∧
    (∀ rest : List Char,
      next_token ('!' :: '=' :: rest) = .ok (some .BangEqual, rest)) ∧
    (∀ rest : List Char,
      next_token ('<' :: '=' :: rest) = .ok (some .LessEqual, rest)) ∧
    (∀ rest : List Char,
      next_token ('>' :: '=' :: rest) = .ok (some .GreaterEqual, rest)) ∧
    (∀ rest : List Char,
      next_token ('&' :: '&' :: rest) = .ok (some .AmpersandAmpersand, rest)) ∧
    (∀ rest : List Char,
      next_token ('|' :: '|' :: rest) = .ok (some .PipePipe, rest)) ∧
    tokenize "x >= 10".toList =
      .ok [.Identifier "x", .GreaterEqual, .Number 10] :=
  ⟨fun _ => rfl, fun _ => rfl, fun _ => rfl, fun _ => rfl, fun _ => rfl,
    fun _ => rfl, by decide⟩

/-- C8: a well-formed numeral lexes to its Number token, but the spec
requires a MalformedNumber error for malformed numerals; the code's
`scan_number` collects the whole digit/dot run and calls `parse().unwrap()`,
so "1.2.3" panics (modelled as the abort outcome) and the trailing-dot
numeral "1." is silently accepted as Number 1.0 instead of being rejected. -/
theorem C8_malformed_number_panics :
    tokenize "10".toList = .ok [.Number 10] ∧
    tokenize "1.2.3".toList = .error (.numberParseFailed "1.2.3") ∧
    tokenize "1.".toList = .ok [.Number 1] :=
  ⟨by decide, by decide, by decide⟩

/-- C9: the keyword table matches the words var, if, else, while, function,
return, this and null in lowercase, but its boolean entries are the
capitalised "True" and "False"; so the lowercase source "true" lexes to an
Identifier token rather than the True keyword token the claim states (and
likewise "false"), while any non-matching word such as "variable" is one
Identifier token holding the text verbatim. -/
theorem C9_keyword_table_case :
    tokenize "true".toList = .ok [.Identifier "true"] ∧
    tokenize "false".toList = .ok [.Identifier "false"] ∧
    tokenize "True".toList = .ok [.True] ∧
    tokenize "False".toList = .ok [.False] ∧
    tokenize "var".toList = .ok [.Var] ∧
    tokenize "if".toList = .ok [.If] ∧
    tokenize "else".toList = .ok [.Else] ∧
    tokenize "while".toList = .ok [.While] ∧
    tokenize "function".toList = .ok [.Function] ∧
    tokenize "return".toList = .ok [.Return] ∧
    tokenize "this".toList = .ok [.This] ∧
    tokenize "null".toList = .ok [.Null] ∧
    tokenize "variable".toList = .ok [.Identifier "variable"] := by
  refine ⟨?_, ?_, ?_, ?_, ?_, ?_, ?_, ?_, ?_, ?_, ?_, ?_, ?_⟩ <;> decide

/-- C10: for every identifier name, a variable declaration without an
initializer (token form 'var' IDENT ';') gets the sentinel NumberLiteral 0.0
as its init (`init.unwrap_or(AstNode::NumberLiteral(0.0))`), so the tokens of
"var IDENT;" and of "var IDENT = 0;" produce identical VariableDeclaration
nodes and a downstream consumer cannot tell them apart. -/
theorem C10_var_sentinel_init (name : String) :
    parse 99 ⟨[.Var, .Identifier name, .Semicolon], 0⟩ =
      .ok (.Program [.VariableDeclaration (.Identifier name) (.NumberLiteral 0)],
        ⟨[.Var, .Identifier name, .Semicolon], 3⟩) ∧
    parse 99 ⟨[.Var, .Identifier name, .Equal, .Number 0, .Semicolon], 0⟩ =
      .ok (.Program [.VariableDeclaration (.Identifier name) (.NumberLiteral 0)],
        ⟨[.Var, .Identifier name, .Equal, .Number 0, .Semicolon], 5⟩) :=
  ⟨rfl, rfl⟩

end Js
